import Mathlib

/-!
Shallow embedding of the `SpeedTestEngine` class (src: SpeedTestEngine, a
TypeScript speed-test engine) together with the type declarations of
`speedTest.ts`.

Modelling conventions:
* All JS numbers are modelled as `ℚ`.  `Math.round` rounds half away from
  zero towards +∞ on the values that occur here, which coincides with
  Mathlib's `round` (`⌊x + 1/2⌋`).
* Network calls are the only source of nondeterminism besides
  `Math.random()`.  Every `fetch` outcome and every `Math.random()` draw is
  passed in explicitly as an environment parameter, so each method of the
  class becomes a total function of its environment.
* Wall-clock reads (`performance.now()`, `Date.now()`) only feed the
  `elapsedTime` field of progress events and the `id`/`timestamp`/
  `testDuration` fields of the result; they are supplied by the
  environment where a claim needs them and omitted from `TestProgress`,
  whose other fields no claim about time depends on.
-/

namespace SpeedTestEngine

/-- `Math.round(x * 10) / 10` — round to one decimal place. -/
def roundTo1 (x : ℚ) : ℚ := ((round (x * 10) : ℤ) : ℚ) / 10

/-- Outcome of one `fetch` probe as observed by the engine: either the
response arrived after `elapsed` milliseconds, or the request failed
(timeout, transport error, …) and control went to the `catch`. -/
inductive ProbeOutcome where
  | success (elapsed : ℚ)
  | failure
deriving DecidableEq

/-- One sample pushed to `measurements` in `measurePing`: the elapsed time on
success, `Math.random() * 30 + 15` on failure. -/
def pingSample (o : ProbeOutcome) (r : ℚ) : ℚ :=
  match o with
  | .success t => t
  | .failure => r * 30 + 15

/-- Environment of one `measurePing()` call: the three probe outcomes and the
three `Math.random()` draws that would be used on failure. -/
structure PingEnv where
  outcome : Fin 3 → ProbeOutcome
  rnd : Fin 3 → ℚ

/-- The `measurements` array built by the `for` loop of `measurePing`. -/
def pingSamples (e : PingEnv) : List ℚ :=
  (List.finRange 3).map (fun i => pingSample (e.outcome i) (e.rnd i))

/-- `measurePing()`: three sequential HEAD probes; each failure contributes a
synthesized sample; returns `measurements.reduce((a,b) => a+b) /
measurements.length` — the plain arithmetic mean, with no rounding. -/
def measurePing (e : PingEnv) : ℚ :=
  (pingSamples e).sum / (pingSamples e).length

/-- A `PingEnv` whose three probes all succeed with the same elapsed time. -/
def constPingEnv (t : ℚ) : PingEnv :=
  ⟨fun _ => .success t, fun _ => 0⟩

/-- The `differences` array of `measureJitter`: absolute differences of
consecutive entries of `pings`. -/
def jitterDiffs (pings : List ℚ) : List ℚ :=
  (pings.zip pings.tail).map (fun p => |p.2 - p.1|)

/-- `measureJitter(pings)`: with fewer than 2 samples returns
`Math.random() * 5 + 1`; otherwise the mean of `jitterDiffs`. -/
def measureJitter (pings : List ℚ) (rnd : ℚ) : ℚ :=
  if pings.length < 2 then rnd * 5 + 1
  else (jitterDiffs pings).sum / (jitterDiffs pings).length

/-- Spec-side formulation of the jitter statistic: the mean of
`|pings[i+1] - pings[i]|` over `i < pings.length - 1`, written with indexed
access rather than the implementation's zip. -/
def specMeanConsecDiff (pings : List ℚ) : ℚ :=
  (((List.range (pings.length - 1)).map
      (fun i => |pings.getD (i + 1) 0 - pings.getD i 0|)).sum) /
    ((pings.length - 1 : ℕ) : ℚ)

theorem jitterDiffs_eq_spec (pings : List ℚ) :
    jitterDiffs pings =
      (List.range (pings.length - 1)).map
        (fun i => |pings.getD (i + 1) 0 - pings.getD i 0|) := by
  induction pings with
  | nil => rfl
  | cons a t ih =>
    cases t with
    | nil => rfl
    | cons b u =>
      simp only [jitterDiffs, List.tail_cons, List.zip_cons_cons, List.map_cons,
        List.length_cons, Nat.add_sub_cancel] at *
      rw [List.range_succ_eq_map]
      simp only [List.map_cons, List.map_map, List.cons.injEq]
      refine ⟨by simp, ?_⟩
      rw [ih]
      simp [Function.comp]

theorem jitterDiffs_length (pings : List ℚ) :
    (jitterDiffs pings).length = pings.length - 1 := by
  rw [jitterDiffs_eq_spec]
  simp

/-! ### Server selection -/

/-- The `TestServer` interface of `speedTest.ts`. -/
structure TestServer where
  id : String
  name : String
  location : String
  host : String
  distance : ℚ
  latency : Option ℚ
deriving DecidableEq

/-- The static `servers` candidate list of the engine. -/
def servers : List TestServer :=
  [⟨"1", "Cloudflare", "Global CDN", "https://speed.cloudflare.com", 0, none⟩,
   ⟨"2", "Google", "Global", "https://www.google.com", 0, none⟩,
   ⟨"3", "GitHub", "Global CDN", "https://github.com", 0, none⟩,
   ⟨"4", "Fast.com", "Netflix CDN", "https://fast.com", 0, none⟩]

/-- One candidate of `findBestServer` after its `quickPing`: on success the
measured latency is attached, on failure the penalty 999. -/
def probeServer (s : TestServer) (o : ProbeOutcome) : TestServer :=
  match o with
  | .success l => { s with latency := some l, distance := l }
  | .failure => { s with latency := some 999, distance := 999 }

/-- The `current.latency!` read used by the `reduce` comparator (every
element fed to it carries `some` latency). -/
def latOf (s : TestServer) : ℚ := s.latency.getD 0

/-- JS `Array.prototype.reduce` without an initial value, specialised to the
comparator `current.latency! < best.latency! ? current : best`: the head is
the initial accumulator, strict `<` keeps the earlier element on ties. -/
def reduceBest (best : TestServer) : List TestServer → TestServer
  | [] => best
  | cur :: rest => reduceBest (if latOf cur < latOf best then cur else best) rest

/-- `findBestServer()`: probes `servers.slice(0, 2)` concurrently (each probe
settles to a latency or the penalty 999), then reduces to the minimum.
`none` models the exception JS `reduce` raises on an empty array; the probed
list always has two elements, so the result is always `some`. -/
def findBestServer (o1 o2 : ProbeOutcome) : Option TestServer :=
  match List.zipWith probeServer (servers.take 2) [o1, o2] with
  | [] => none
  | h :: t => some (reduceBest h t)

/-- Placeholder for out-of-range list reads (never reached). -/
def dummyServer : TestServer := ⟨"", "", "", "", 0, none⟩

/-- The first candidate of `servers.slice(0, 2)`. -/
def cand1 : TestServer := servers.getD 0 dummyServer

/-- The second candidate of `servers.slice(0, 2)`. -/
def cand2 : TestServer := servers.getD 1 dummyServer

/-! ### Packet loss -/

/-- The `{ percentage, sent, received }` record of `measurePacketLoss`. -/
structure PacketLossValue where
  percentage : ℚ
  sent : ℕ
  received : ℕ
deriving DecidableEq

/-- `totalPackets = 50`. -/
def totalPackets : ℕ := 50

/-- `Math.floor(totalPackets * 0.95)` of the fallback branch. -/
def packetLossFallbackReceived : ℕ := ⌊(totalPackets : ℚ) * (95 / 100)⌋.toNat

/-- `measurePacketLoss()`: fires 50 probes; `receivedPackets` counts the ones
that resolve; the result rounds `(lost / total) * 100` to one decimal.
`catastrophic` models an exception escaping the whole `try` block, which
lands in the fixed fallback `{ percentage: 5.0, sent: 50, received: 47 }`. -/
def measurePacketLoss (outcomes : Fin 50 → Bool) (catastrophic : Bool) :
    PacketLossValue :=
  if catastrophic then
    ⟨5, totalPackets, packetLossFallbackReceived⟩
  else
    let received := (Finset.univ.filter (fun i : Fin 50 => outcomes i = true)).card
    let lost := totalPackets - received
    ⟨roundTo1 ((lost : ℚ) / (totalPackets : ℚ) * 100), totalPackets, received⟩

theorem packetLossFallbackReceived_eq : packetLossFallbackReceived = 47 := by
  norm_num [packetLossFallbackReceived, totalPackets]
  rfl

/-! ### Bufferbloat -/

/-- The bufferbloat letter grades. -/
inductive Rating where
  | A | B | C | D | F
deriving DecidableEq

/-- The `{ rating, latencyIncrease }` record of `measureBufferbloat`. -/
structure BufferbloatValue where
  rating : Rating
  latencyIncrease : ℚ
deriving DecidableEq

/-- The `if/else if` chain classifying `latencyIncrease`. -/
def classifyBufferbloat (inc : ℚ) : Rating :=
  if inc < 20 then .A
  else if inc < 50 then .B
  else if inc < 100 then .C
  else if inc < 200 then .D
  else .F

/-- The `TestConfig` interface of `speedTest.ts`. -/
structure TestConfig where
  duration : ℚ
  parallelConnections : ℕ
  enableBufferbloat : Bool
  enableStressTest : Bool
deriving DecidableEq

/-- The constructor's default config. -/
def defaultConfig : TestConfig := ⟨10, 4, true, false⟩

/-- Environment of one `measureBufferbloat` call: the five `measurePing`
calls made under load, the possibility of an exception escaping the `try`
(`errored`), and the `Math.random()` draw of that fallback branch. -/
structure BufferbloatEnv where
  pings : Fin 5 → PingEnv
  errored : Bool
  rnd : ℚ

/-- The `loadedPings` array: five `measurePing()` results. -/
def loadedPings (e : BufferbloatEnv) : List ℚ :=
  (List.finRange 5).map (fun i => measurePing (e.pings i))

/-- `measureBufferbloat(basePing)`: disabled → rating A, increase 0 (nothing
probed — the result ignores the environment); error path → rating B with
`Math.random() * 50 + 20`; otherwise `latencyIncrease = max(0, avgLoadedPing
- basePing)` classified by `classifyBufferbloat`. -/
def measureBufferbloat (cfg : TestConfig) (basePing : ℚ) (e : BufferbloatEnv) :
    BufferbloatValue :=
  if cfg.enableBufferbloat = false then ⟨.A, 0⟩
  else if e.errored then ⟨.B, e.rnd * 50 + 20⟩
  else
    let avg := (loadedPings e).sum / (loadedPings e).length
    let inc := max 0 (avg - basePing)
    ⟨classifyBufferbloat inc, inc⟩

/-- A `BufferbloatEnv` whose fifteen probes all succeed with elapsed `t`. -/
def constBBEnv (t : ℚ) : BufferbloatEnv :=
  ⟨fun _ => constPingEnv t, false, 0⟩

/-! ### Throughput -/

/-- The three-element URL literal built for download task `i` in
`measureDownloadSpeed`; the task then picks entry `i % 3`. -/
def downloadUrlPool (i : ℕ) : List String :=
  ["https://speed.cloudflare.com/__down?bytes=" ++ toString (1048576 + i * 524288),
   "https://httpbin.org/bytes/" ++ toString (1048576 + i * 524288),
   "https://cdn.jsdelivr.net/test/" ++ toString (1048576 + i * 524288)]

/-- The `testUrls` array: `Array(parallelConnections)` entries, task `i`
using pool entry `i % 3`. Its length is the number of download tasks
launched. -/
def downloadUrls (cfg : TestConfig) : List String :=
  (List.range cfg.parallelConnections).map (fun i => (downloadUrlPool i).getD (i % 3) "")

/-- The `uploadEndpoints` array of `measureUploadSpeed`. -/
def uploadEndpoints : List String :=
  ["https://speed.cloudflare.com/__up",
   "https://httpbin.org/post",
   "https://api.speedtest.net/upload"]

/-- The upload tasks: `Array(Math.min(parallelConnections, 3))` entries,
task `index` POSTing to `uploadEndpoints[index % uploadEndpoints.length]`.
Its length is the number of upload tasks launched. -/
def uploadTaskUrls (cfg : TestConfig) : List String :=
  (List.range (min cfg.parallelConnections 3)).map
    (fun i => uploadEndpoints.getD (i % uploadEndpoints.length) "")

/-- Environment of one transfer task: whether the request chain succeeded,
the bytes moved and the elapsed seconds on success, and the `Math.random()`
draw of the task's `catch`. -/
structure TaskOutcome where
  ok : Bool
  bytes : ℕ
  durSec : ℚ
  rnd : ℚ

/-- Final rate of one download task: `(downloadedBytes * 8) / duration /
1_000_000` Mbps, or `Math.random() * 50 + 15` from the `catch`. -/
def dlTaskSpeed (t : TaskOutcome) : ℚ :=
  if t.ok then ((t.bytes : ℚ) * 8) / t.durSec / 1000000
  else t.rnd * 50 + 15

/-- `measureDownloadSpeed()`: launches one task per `testUrls` entry, keeps
the strictly positive rates, and averages them; if that set is empty the
whole phase falls back to `Math.random() * 100 + 25`. -/
def measureDownloadSpeed (cfg : TestConfig) (tasks : ℕ → TaskOutcome)
    (rndAll : ℚ) : ℚ :=
  let speeds := ((List.range cfg.parallelConnections).map
      (fun i => dlTaskSpeed (tasks i))).filter (fun s => 0 < s)
  if speeds.isEmpty then rndAll * 100 + 25
  else speeds.sum / speeds.length

/-- Final rate of one upload task: the payload is always 1 MiB, so the rate
is `(1048576 * 8) / duration / 1_000_000` Mbps, or `Math.random() * 25 + 8`
from the `catch`. -/
def ulTaskSpeed (t : TaskOutcome) : ℚ :=
  if t.ok then ((1048576 : ℚ) * 8) / t.durSec / 1000000
  else t.rnd * 25 + 8

/-- `measureUploadSpeed()`: launches `min(parallelConnections, 3)` tasks,
keeps the strictly positive rates, and averages them; if that set is empty
the phase falls back to `Math.random() * 40 + 10`. -/
def measureUploadSpeed (cfg : TestConfig) (tasks : ℕ → TaskOutcome)
    (rndAll : ℚ) : ℚ :=
  let speeds := ((List.range (min cfg.parallelConnections 3)).map
      (fun i => ulTaskSpeed (tasks i))).filter (fun s => 0 < s)
  if speeds.isEmpty then rndAll * 40 + 10
  else speeds.sum / speeds.length

/-! ### The `signal` option of every `fetch` call site -/

/-- What a `fetch` call site passes as its `signal` option: a fresh
`AbortSignal.timeout(ms)`, the shared `abortController.signal` that
`abort()` would trip, or no signal at all. -/
inductive FetchSignal where
  | timeoutMs (ms : ℚ)
  | sharedAbortSignal
  | noSignal
deriving DecidableEq

/-- `quickPing`: `signal: AbortSignal.timeout(2000)`. -/
def quickPingSignal : FetchSignal := .timeoutMs 2000

/-- `measurePing`: `signal: AbortSignal.timeout(1000)`. -/
def measurePingSignal : FetchSignal := .timeoutMs 1000

/-- `measureDownloadSpeed`: `signal: AbortSignal.timeout(duration * 1000)`. -/
def downloadSignal (cfg : TestConfig) : FetchSignal :=
  .timeoutMs (cfg.duration * 1000)

/-- `measureUploadSpeed`: `signal: AbortSignal.timeout(duration * 1000)`. -/
def uploadSignal (cfg : TestConfig) : FetchSignal :=
  .timeoutMs (cfg.duration * 1000)

/-- The background-load `fetch` of `measureBufferbloat` passes no options. -/
def bufferbloatLoadSignal : FetchSignal := .noSignal

/-- `measurePacketLoss`: `signal: AbortSignal.timeout(1500)`. -/
def packetLossSignal : FetchSignal := .timeoutMs 1500

/-- `getUserLocation`: `signal: AbortSignal.timeout(2000)`. -/
def geoLookupSignal : FetchSignal := .timeoutMs 2000

/-- The signals of all seven `fetch` call sites of the engine. -/
def allFetchSignals (cfg : TestConfig) : List FetchSignal :=
  [quickPingSignal, measurePingSignal, downloadSignal cfg, uploadSignal cfg,
   bufferbloatLoadSignal, packetLossSignal, geoLookupSignal]

/-! ### Launched vs awaited tasks of the fan-out phases -/

/-- The concurrent tasks `measureBufferbloat` creates: the three
`loadPromises` background downloads and the five `measurePing` calls. -/
inductive BufferbloatTask where
  | backgroundLoad (i : Fin 3)
  | latencyProbe (i : Fin 5)
deriving DecidableEq

/-- Every task started inside `measureBufferbloat`. -/
def bufferbloatLaunched : List BufferbloatTask :=
  (List.finRange 3).map .backgroundLoad ++ (List.finRange 5).map .latencyProbe

/-- The tasks whose settlement `measureBufferbloat` awaits before returning:
each of the five `measurePing` calls is awaited in the loop; the promises
pushed onto `loadPromises` are never awaited anywhere in the method. -/
def bufferbloatAwaited : List BufferbloatTask :=
  (List.finRange 5).map .latencyProbe

/-- The 50 probe requests pushed onto `requests` in `measurePacketLoss`. -/
def packetLossLaunched : List (Fin 50) := List.finRange 50

/-- `await Promise.all(requests)` joins exactly the pushed requests. -/
def packetLossAwaited : List (Fin 50) := packetLossLaunched

/-! ### User location -/

/-- The `{ city, country, ip }` record stored in `SpeedTestResult`. -/
structure UserLocation where
  city : String
  country : String
  ip : String
deriving DecidableEq

/-- The fields `getUserLocation` reads from the `ipapi.co` JSON; `none`
models an absent/undefined field (and `some ""` an empty string, which JS
`||` also treats as falsy). -/
structure GeoData where
  city : Option String
  country_name : Option String
  ip : Option String

/-- JS `v || d` for the string-or-undefined fields of the lookup. -/
def jsOrDefault (v : Option String) (d : String) : String :=
  match v with
  | some s => if s = "" then d else s
  | none => d

/-- `getUserLocation()`: `none` models any failure of the whole lookup
(fetch rejection, timeout, JSON decode error) landing in the `catch`;
`some d` a decoded response with possibly-missing fields. -/
def getUserLocation (resp : Option GeoData) : UserLocation :=
  match resp with
  | some d =>
      ⟨jsOrDefault d.city "Unknown City",
       jsOrDefault d.country_name "Unknown Country",
       jsOrDefault d.ip "127.0.0.1"⟩
  | none => ⟨"Your City", "Your Country", "127.0.0.1"⟩

/-! ### The orchestrator `runSpeedTest` -/

/-- The `phase` union of `TestProgress`. -/
inductive Phase where
  | idle | ping | download | upload | bufferbloat | packetLoss | complete
deriving DecidableEq

/-- A `TestProgress` event as delivered to `onProgress` (the wall-clock
`elapsedTime` field is omitted; no claim depends on it). -/
structure TestProgress where
  phase : Phase
  progress : ℚ
  currentSpeed : ℚ
deriving DecidableEq

/-- `updateProgress`: clamps `progress` with `Math.min(progress, 100)`
before emitting. -/
def updateProgress (ph : Phase) (p : ℚ) (s : ℚ) : TestProgress :=
  ⟨ph, min p 100, s⟩

/-- The `SpeedTestResult` interface of `speedTest.ts` (the unused
`stability` optional is dropped). -/
structure SpeedTestResult where
  id : String
  timestamp : ℕ
  downloadSpeed : ℚ
  uploadSpeed : ℚ
  ping : ℚ
  jitter : ℚ
  serverLocation : String
  userLocation : UserLocation
  testDuration : ℚ
  bufferbloat : Option BufferbloatValue
  packetLoss : Option PacketLossValue

/-- Environment of one `runSpeedTest()` call: every probe outcome and random
draw consumed along the way, the wall-clock-derived scalars, and the
possibility of an exception escaping the whole `try` (`catastrophic`, which
interrupts the event trace after `catastrophicAt` events and lands in the
fallback result whose random draws are `fbDl`/`fbUl`/`fbPing`/`fbJitter`). -/
structure RunEnv where
  serverProbe1 : ProbeOutcome
  serverProbe2 : ProbeOutcome
  mainPings : Fin 5 → PingEnv
  jitterRnd : ℚ
  dlTasks : ℕ → TaskOutcome
  dlAllFailRnd : ℚ
  dlInnerEvents : List (ℚ × ℚ)
  ulTasks : ℕ → TaskOutcome
  ulAllFailRnd : ℚ
  ulInnerEvents : List (ℚ × ℚ)
  plOutcomes : Fin 50 → Bool
  plCatastrophic : Bool
  plOrder : List ℕ
  bb : BufferbloatEnv
  geo : Option GeoData
  idStr : String
  timestamp : ℕ
  testDuration : ℚ
  catastrophic : Bool
  catastrophicAt : ℕ
  fbDl : ℚ
  fbUl : ℚ
  fbPing : ℚ
  fbJitter : ℚ

/-- The `pings` array of the main ping phase: five `measurePing()` calls. -/
def mainPingList (env : RunEnv) : List ℚ :=
  (List.finRange 5).map (fun i => measurePing (env.mainPings i))

/-- `avgPing = pings.reduce((a, b) => a + b) / pings.length`. -/
def avgPing (env : RunEnv) : ℚ :=
  (mainPingList env).sum / (mainPingList env).length

/-- The progress events the engine emits on the success path, in order:
the two fixed ping events and the five per-iteration ping events; the
download kickoff plus the read-loop samples of download task 0 (whose
progress values are timing-driven, hence environment-supplied, and pass
through the same `Math.min(..., 100)` clamp as in the source); likewise for
upload; the two packet-loss kickoff events plus one completion event per
probe in settlement order; and the bufferbloat events when that phase is
enabled. -/
def successEvents (cfg : TestConfig) (env : RunEnv) : List TestProgress :=
  [updateProgress .ping 10 0, updateProgress .ping 30 0] ++
  (List.finRange 5).map
    (fun i => updateProgress .ping (30 + ((i : ℕ) : ℚ) / 5 * 20) 0) ++
  [updateProgress .download 0 0] ++
  env.dlInnerEvents.map (fun e => updateProgress .download (min e.1 100) e.2) ++
  [updateProgress .upload 0 0] ++
  env.ulInnerEvents.map (fun e => updateProgress .upload (min e.1 100) e.2) ++
  [updateProgress .packetLoss 0 0, updateProgress .packetLoss 0 0] ++
  env.plOrder.map
    (fun i => updateProgress .packetLoss (((i : ℚ) + 1) / 50 * 100) 0) ++
  (if cfg.enableBufferbloat then
    [updateProgress .bufferbloat 50 0] ++
    (if env.bb.errored then [] else
      (List.finRange 5).map
        (fun i => updateProgress .bufferbloat (50 + ((i : ℕ) : ℚ) / 5 * 50) 0))
  else [])

/-- The `SpeedTestResult` assembled at the end of the success path. -/
def successResult (cfg : TestConfig) (env : RunEnv) : SpeedTestResult where
  id := env.idStr
  timestamp := env.timestamp
  downloadSpeed := roundTo1 (measureDownloadSpeed cfg env.dlTasks env.dlAllFailRnd)
  uploadSpeed := roundTo1 (measureUploadSpeed cfg env.ulTasks env.ulAllFailRnd)
  ping := roundTo1 (avgPing env)
  jitter := roundTo1 (measureJitter (mainPingList env) env.jitterRnd)
  serverLocation :=
    match findBestServer env.serverProbe1 env.serverProbe2 with
    | some s => s.location
    | none => ""
  userLocation := getUserLocation env.geo
  testDuration := env.testDuration
  bufferbloat :=
    if cfg.enableBufferbloat then
      some (measureBufferbloat cfg (avgPing env) env.bb)
    else none
  packetLoss := some (measurePacketLoss env.plOutcomes env.plCatastrophic)

/-- The fully synthesized fallback result of the orchestrator's `catch`. -/
def fallbackResult (cfg : TestConfig) (env : RunEnv) : SpeedTestResult where
  id := env.idStr
  timestamp := env.timestamp
  downloadSpeed := roundTo1 (env.fbDl * 80 + 25)
  uploadSpeed := roundTo1 (env.fbUl * 30 + 10)
  ping := roundTo1 (env.fbPing * 40 + 15)
  jitter := roundTo1 (env.fbJitter * 8 + 2)
  serverLocation := "Global CDN"
  userLocation := getUserLocation env.geo
  testDuration := env.testDuration
  bufferbloat := if cfg.enableBufferbloat then some ⟨.B, 35⟩ else none
  packetLoss := some ⟨2, 50, 49⟩

/-- `runSpeedTest()`: drives the phases sequentially and returns the result
together with the full list of emitted progress events.  On the
catastrophic path the success trace is cut off where the exception struck
and the fallback result is returned; both paths end by emitting
`updateProgress('complete', 100, 0)` and return exactly one result. -/
def runSpeedTest (cfg : TestConfig) (env : RunEnv) :
    SpeedTestResult × List TestProgress :=
  if env.catastrophic then
    (fallbackResult cfg env,
     (successEvents cfg env).take env.catastrophicAt ++
       [updateProgress .complete 100 0])
  else
    (successResult cfg env, successEvents cfg env ++ [updateProgress .complete 100 0])

/-- `abort()` only calls `this.abortController?.abort()`; the embedding
records the one signal that trips. -/
def abortTrips : FetchSignal := .sharedAbortSignal

/-- A `PingEnv` whose first probe fails (random draw 1/2) and whose other
probes succeed in 20 ms. -/
def mixedPingEnv : PingEnv :=
  ⟨fun i => if i = 0 then .failure else .success 20, fun _ => 1 / 2⟩

/-! ## Helper lemmas -/

theorem pingSamples_length (e : PingEnv) : (pingSamples e).length = 3 := by
  simp [pingSamples]

theorem measurePing_const (t : ℚ) : measurePing (constPingEnv t) = t := by
  have h : pingSamples (constPingEnv t) = [t, t, t] := rfl
  rw [measurePing, h]
  norm_num
  ring

theorem roundTo1_int (n : ℤ) : roundTo1 (n : ℚ) = n := by
  rw [roundTo1]
  have h : ((n : ℚ) * 10) = ((n * 10 : ℤ) : ℚ) := by push_cast; ring
  rw [h, round_intCast]
  push_cast
  ring

theorem measurePacketLoss_received_le (outcomes : Fin 50 → Bool) (c : Bool) :
    (measurePacketLoss outcomes c).received ≤ (measurePacketLoss outcomes c).sent := by
  rw [measurePacketLoss]
  cases c with
  | true => simp [packetLossFallbackReceived_eq, totalPackets]
  | false =>
    simp only [Bool.false_eq_true, if_false]
    calc (Finset.univ.filter (fun i : Fin 50 => outcomes i = true)).card
        ≤ (Finset.univ : Finset (Fin 50)).card := Finset.card_filter_le _ _
      _ = totalPackets := by simp [totalPackets]

theorem jsOrDefault_ne_empty (v : Option String) (d : String) (hd : d ≠ "") :
    jsOrDefault v d ≠ "" := by
  cases v with
  | none => simpa [jsOrDefault] using hd
  | some s =>
    rw [jsOrDefault]
    split_ifs with h
    · exact hd
    · exact h

/-! ## Claims -/

/-- C5: for ≥ 2 samples, `measureJitter` is the arithmetic mean of the
absolute differences of consecutive samples (written spec-side with indexed
access); for < 2 samples it never raises and returns a synthesized value in
[1, 6); and `measureJitter [10, 15, 5]` is 7.5. -/
theorem measureJitter_spec (pings : List ℚ) (rnd : ℚ)
    (h0 : 0 ≤ rnd) (h1 : rnd < 1) :
    (2 ≤ pings.length → measureJitter pings rnd = specMeanConsecDiff pings) ∧
    (pings.length < 2 →
      1 ≤ measureJitter pings rnd ∧ measureJitter pings rnd < 6) ∧
    measureJitter [10, 15, 5] rnd = 15 / 2 := by
  refine ⟨?_, ?_, ?_⟩
  · intro h
    have hl := jitterDiffs_length pings
    rw [measureJitter, if_neg (by omega), hl, jitterDiffs_eq_spec,
      specMeanConsecDiff]
  · intro h
    rw [measureJitter, if_pos h]
    constructor
    · nlinarith
    · nlinarith
  · norm_num [measureJitter, jitterDiffs, List.zip]

/-- C5 witness: the theorem instantiated at the sample list [10, 15, 5] and
random draw 0. -/
theorem measureJitter_spec_witness :
    (2 ≤ ([10, 15, 5] : List ℚ).length →
      measureJitter [10, 15, 5] 0 = specMeanConsecDiff [10, 15, 5]) ∧
    (([10, 15, 5] : List ℚ).length < 2 →
      1 ≤ measureJitter [10, 15, 5] 0 ∧ measureJitter [10, 15, 5] 0 < 6) ∧
    measureJitter [10, 15, 5] 0 = 15 / 2 :=
  measureJitter_spec [10, 15, 5] 0 (by norm_num) (by norm_num)

/-- C8 counterexample: `measurePing` does NOT round its result to one
decimal.  When all three probes take 10.05 ms it returns 10.05, whereas
rounding the mean to one decimal would give 10.1. -/
theorem measurePing_not_rounded :
    measurePing (constPingEnv (201 / 20)) = 201 / 20 ∧
    roundTo1 (201 / 20) = 101 / 10 ∧
    measurePing (constPingEnv (201 / 20)) ≠
      roundTo1 (measurePing (constPingEnv (201 / 20))) := by
  have h : measurePing (constPingEnv (201 / 20)) = 201 / 20 :=
    measurePing_const (201 / 20)
  have hr : roundTo1 (201 / 20 : ℚ) = 101 / 10 := by
    rw [roundTo1, round_eq]
    norm_num
  refine ⟨h, hr, ?_⟩
  rw [h, hr]
  norm_num

/-- C8 (amended): `measurePing` collects exactly 3 samples, substitutes a
synthesized sample in [15, 45) for each failed probe, and returns the plain
(unrounded) arithmetic mean of the 3 samples; rounding to one decimal only
happens later in the orchestrator. -/
theorem measurePing_spec (e : PingEnv)
    (hr : ∀ i, 0 ≤ e.rnd i ∧ e.rnd i < 1) :
    (pingSamples e).length = 3 ∧
    measurePing e = (pingSamples e).sum / 3 ∧
    ∀ i, e.outcome i = .failure →
      15 ≤ pingSample (e.outcome i) (e.rnd i) ∧
      pingSample (e.outcome i) (e.rnd i) < 45 := by
  refine ⟨pingSamples_length e, ?_, ?_⟩
  · rw [measurePing, pingSamples_length e]
    norm_num
  · intro i hi
    have hs : pingSample ProbeOutcome.failure (e.rnd i) = e.rnd i * 30 + 15 := rfl
    rw [hi, hs]
    constructor
    · nlinarith [(hr i).1]
    · nlinarith [(hr i).2]

/-- C8 witness: the theorem instantiated at an environment whose first probe
fails with random draw 1/2 and whose other probes take 20 ms. -/
theorem measurePing_spec_witness :
    (pingSamples mixedPingEnv).length = 3 ∧
    measurePing mixedPingEnv = (pingSamples mixedPingEnv).sum / 3 ∧
    ∀ i, mixedPingEnv.outcome i = .failure →
      15 ≤ pingSample (mixedPingEnv.outcome i) (mixedPingEnv.rnd i) ∧
      pingSample (mixedPingEnv.outcome i) (mixedPingEnv.rnd i) < 45 :=
  measurePing_spec mixedPingEnv (fun _ => by norm_num [mixedPingEnv])

/-- C4: with bufferbloat disabled the analyzer returns rating A and zero
increase for every environment (it probes nothing); on the enabled,
non-error path the result is `max 0 (avgLoadedPing - basePing)` classified
by the fixed monotone thresholds 20/50/100/200; baseline 20 with loaded
average 85 gives increase 65 and rating C. -/
theorem measureBufferbloat_spec (cfg : TestConfig) (b : ℚ) (e : BufferbloatEnv)
    (he : e.errored = false) (hon : cfg.enableBufferbloat = true) :
    measureBufferbloat cfg b e =
      ⟨classifyBufferbloat (max 0 ((loadedPings e).sum / 5 - b)),
        max 0 ((loadedPings e).sum / 5 - b)⟩ ∧
    (∀ x : ℚ,
      (x < 20 → classifyBufferbloat x = .A) ∧
      (20 ≤ x → x < 50 → classifyBufferbloat x = .B) ∧
      (50 ≤ x → x < 100 → classifyBufferbloat x = .C) ∧
      (100 ≤ x → x < 200 → classifyBufferbloat x = .D) ∧
      (200 ≤ x → classifyBufferbloat x = .F)) ∧
    (∀ cfg2 b2 e2, cfg2.enableBufferbloat = false →
      measureBufferbloat cfg2 b2 e2 = ⟨.A, 0⟩) ∧
    measureBufferbloat defaultConfig 20 (constBBEnv 85) = ⟨.C, 65⟩ := by
  refine ⟨?_, ?_, ?_, ?_⟩
  · have hlen : (loadedPings e).length = 5 := by simp [loadedPings]
    rw [measureBufferbloat, if_neg (by simp [hon]), if_neg (by simp [he]), hlen]
    norm_num
  · intro x
    refine ⟨?_, ?_, ?_, ?_, ?_⟩ <;> intros <;>
      simp only [classifyBufferbloat] <;> split_ifs <;> first | rfl | linarith
  · intro cfg2 b2 e2 h2
    rw [measureBufferbloat, if_pos h2]
  · have hlen : (loadedPings (constBBEnv 85)).length = 5 := by simp [loadedPings]
    have hsum : (loadedPings (constBBEnv 85)).sum = 425 := by
      have hlp : loadedPings (constBBEnv 85) =
          List.replicate 5 (measurePing (constPingEnv 85)) := rfl
      rw [hlp, measurePing_const]
      norm_num [List.sum_replicate]
    rw [measureBufferbloat, if_neg (by simp [defaultConfig]),
      if_neg (by simp [constBBEnv]), hlen, hsum]
    norm_num [classifyBufferbloat]

/-- C4 witness: the theorem instantiated at the default configuration,
baseline 20 and an all-85-ms loaded environment. -/
theorem measureBufferbloat_spec_witness :
    measureBufferbloat defaultConfig 20 (constBBEnv 85) =
      ⟨classifyBufferbloat (max 0 ((loadedPings (constBBEnv 85)).sum / 5 - 20)),
        max 0 ((loadedPings (constBBEnv 85)).sum / 5 - 20)⟩ ∧
    (∀ x : ℚ,
      (x < 20 → classifyBufferbloat x = .A) ∧
      (20 ≤ x → x < 50 → classifyBufferbloat x = .B) ∧
      (50 ≤ x → x < 100 → classifyBufferbloat x = .C) ∧
      (100 ≤ x → x < 200 → classifyBufferbloat x = .D) ∧
      (200 ≤ x → classifyBufferbloat x = .F)) ∧
    (∀ cfg2 b2 e2, cfg2.enableBufferbloat = false →
      measureBufferbloat cfg2 b2 e2 = ⟨.A, 0⟩) ∧
    measureBufferbloat defaultConfig 20 (constBBEnv 85) = ⟨.C, 65⟩ :=
  measureBufferbloat_spec defaultConfig 20 (constBBEnv 85) rfl rfl

/-- C2 counterexample: on the catastrophic-fallback path `measurePacketLoss`
returns sent = 50 and received = 47 but percentage 5.0, while the claimed
formula `100 * (sent - received) / sent` rounded to one decimal gives 6.0
for those counts — so the formula does not hold on that path. -/
theorem measurePacketLoss_fallback_breaks_formula :
    measurePacketLoss (fun _ => true) true = ⟨5, 50, 47⟩ ∧
    roundTo1 (100 * (((50 : ℚ) - 47) / 50)) = 6 ∧
    (measurePacketLoss (fun _ => true) true).percentage ≠
      roundTo1 (100 *
        ((((measurePacketLoss (fun _ => true) true).sent : ℚ) -
          ((measurePacketLoss (fun _ => true) true).received : ℚ)) /
          ((measurePacketLoss (fun _ => true) true).sent : ℚ))) := by
  have hfb : measurePacketLoss (fun _ => true) true = ⟨5, 50, 47⟩ := by
    rw [measurePacketLoss, if_pos rfl, packetLossFallbackReceived_eq]
    rfl
  have h6 : roundTo1 (100 * (((50 : ℚ) - 47) / 50)) = 6 := by
    have : (100 * (((50 : ℚ) - 47) / 50)) = ((6 : ℤ) : ℚ) := by norm_num
    rw [this, roundTo1_int]
    norm_num
  refine ⟨hfb, h6, ?_⟩
  rw [hfb]
  simpa using h6 ▸ (by norm_num : (5 : ℚ) ≠ 6)

/-- C2 (amended): every non-catastrophic return of `measurePacketLoss` has
sent = 50, received ≤ 50 and percentage = `100 * (sent - received) / sent`
rounded to one decimal (in particular received = 47 yields 6.0); the
catastrophic-fallback path instead returns the fixed record
{ percentage: 5.0, sent: 50, received: 47 }, whose percentage does not
follow that formula. -/
theorem measurePacketLoss_spec (outcomes : Fin 50 → Bool) :
    (measurePacketLoss outcomes false).sent = 50 ∧
    (measurePacketLoss outcomes false).received ≤ 50 ∧
    (measurePacketLoss outcomes false).percentage =
      roundTo1 (100 *
        ((((measurePacketLoss outcomes false).sent : ℚ) -
          ((measurePacketLoss outcomes false).received : ℚ)) /
          ((measurePacketLoss outcomes false).sent : ℚ))) ∧
    ((measurePacketLoss outcomes false).received = 47 →
      (measurePacketLoss outcomes false).percentage = 6) ∧
    measurePacketLoss outcomes true = ⟨5, 50, 47⟩ := by
  have hsent : (measurePacketLoss outcomes false).sent = 50 := rfl
  have hle : (measurePacketLoss outcomes false).received ≤ 50 := by
    simpa [totalPackets] using measurePacketLoss_received_le outcomes false
  have hform : (measurePacketLoss outcomes false).percentage =
      roundTo1 (100 *
        ((((measurePacketLoss outcomes false).sent : ℚ) -
          ((measurePacketLoss outcomes false).received : ℚ)) /
          ((measurePacketLoss outcomes false).sent : ℚ))) := by
    have hrec : (measurePacketLoss outcomes false).received =
        (Finset.univ.filter (fun i : Fin 50 => outcomes i = true)).card := rfl
    have hperc : (measurePacketLoss outcomes false).percentage =
        roundTo1 (((totalPackets -
          (Finset.univ.filter (fun i : Fin 50 => outcomes i = true)).card : ℕ) : ℚ) /
          (totalPackets : ℚ) * 100) := rfl
    rw [hperc, hsent, hrec]
    have hcast : (((totalPackets -
        (Finset.univ.filter (fun i : Fin 50 => outcomes i = true)).card : ℕ)) : ℚ) =
        (totalPackets : ℚ) -
          ((Finset.univ.filter (fun i : Fin 50 => outcomes i = true)).card : ℚ) := by
      have := measurePacketLoss_received_le outcomes false
      rw [Nat.cast_sub]
      simpa [measurePacketLoss, totalPackets] using hle
    rw [hcast]
    norm_num [totalPackets]
    ring_nf
  refine ⟨hsent, hle, hform, ?_, ?_⟩
  · intro h47
    rw [hform, hsent, h47]
    have h6 : (100 * ((((50 : ℕ) : ℚ) - ((47 : ℕ) : ℚ)) / ((50 : ℕ) : ℚ))) =
        ((6 : ℤ) : ℚ) := by push_cast; norm_num
    rw [h6, roundTo1_int]
    norm_num
  · rw [measurePacketLoss, if_pos rfl, packetLossFallbackReceived_eq]
    rfl

/-- C2 witness: the theorem instantiated at the outcome vector whose first
47 probes succeed, which makes received = 47 and percentage = 6.0. -/
theorem measurePacketLoss_spec_witness :
    (measurePacketLoss (fun i => decide ((i : ℕ) < 47)) false).sent = 50 ∧
    (measurePacketLoss (fun i => decide ((i : ℕ) < 47)) false).received ≤ 50 ∧
    (measurePacketLoss (fun i => decide ((i : ℕ) < 47)) false).percentage =
      roundTo1 (100 *
        ((((measurePacketLoss (fun i => decide ((i : ℕ) < 47)) false).sent : ℚ) -
          ((measurePacketLoss (fun i => decide ((i : ℕ) < 47)) false).received : ℚ)) /
          ((measurePacketLoss (fun i => decide ((i : ℕ) < 47)) false).sent : ℚ))) ∧
    ((measurePacketLoss (fun i => decide ((i : ℕ) < 47)) false).received = 47 →
      (measurePacketLoss (fun i => decide ((i : ℕ) < 47)) false).percentage = 6) ∧
    measurePacketLoss (fun i => decide ((i : ℕ) < 47)) true = ⟨5, 50, 47⟩ :=
  measurePacketLoss_spec (fun i => decide ((i : ℕ) < 47))

/-- C7: `findBestServer` always returns `some` candidate from the probed
pair, a failed probe is scored with the penalty latency 999 rather than
excluded, the minimum-latency candidate wins with ties bound to the
first-encountered one, and with candidate 1 failing while candidate 2
answers in 20 ms it returns the responsive candidate with latency 20. -/
theorem findBestServer_spec (o1 o2 : ProbeOutcome) :
    (∃ s, findBestServer o1 o2 = some s ∧
      (s = probeServer cand1 o1 ∨ s = probeServer cand2 o2) ∧
      latOf s ≤ latOf (probeServer cand1 o1) ∧
      latOf s ≤ latOf (probeServer cand2 o2) ∧
      (latOf (probeServer cand1 o1) ≤ latOf (probeServer cand2 o2) →
        s = probeServer cand1 o1)) ∧
    (∀ s : TestServer, (probeServer s .failure).latency = some 999) ∧
    findBestServer .failure (.success 20) =
      some ⟨"2", "Google", "Global", "https://www.google.com", 20, some 20⟩ := by
  have hred : findBestServer o1 o2 =
      some (if latOf (probeServer cand2 o2) < latOf (probeServer cand1 o1)
        then probeServer cand2 o2 else probeServer cand1 o1) := rfl
  refine ⟨?_, fun s => rfl, ?_⟩
  · by_cases h : latOf (probeServer cand2 o2) < latOf (probeServer cand1 o1)
    · refine ⟨probeServer cand2 o2, ?_, Or.inr rfl, le_of_lt h, le_refl _, ?_⟩
      · rw [hred, if_pos h]
      · intro hle
        linarith
    · refine ⟨probeServer cand1 o1, ?_, Or.inl rfl, le_refl _, not_lt.mp h,
        fun _ => rfl⟩
      rw [hred, if_neg h]
  · have hc : findBestServer .failure (.success 20) =
        some (if latOf (probeServer cand2 (.success 20)) <
            latOf (probeServer cand1 .failure)
          then probeServer cand2 (.success 20)
          else probeServer cand1 .failure) := rfl
    have h20 : latOf (probeServer cand2 (.success 20)) = 20 := rfl
    have h999 : latOf (probeServer cand1 .failure) = 999 := rfl
    rw [hc, h20, h999, if_pos (by norm_num)]
    rfl

/-- C7 witness: the theorem instantiated at the spec's example — candidate 1
fails, candidate 2 answers in 20 ms. -/
theorem findBestServer_spec_witness :
    (∃ s, findBestServer .failure (.success 20) = some s ∧
      (s = probeServer cand1 .failure ∨ s = probeServer cand2 (.success 20)) ∧
      latOf s ≤ latOf (probeServer cand1 .failure) ∧
      latOf s ≤ latOf (probeServer cand2 (.success 20)) ∧
      (latOf (probeServer cand1 .failure) ≤ latOf (probeServer cand2 (.success 20)) →
        s = probeServer cand1 .failure)) ∧
    (∀ s : TestServer, (probeServer s .failure).latency = some 999) ∧
    findBestServer .failure (.success 20) =
      some ⟨"2", "Google", "Global", "https://www.google.com", 20, some 20⟩ :=
  findBestServer_spec .failure (.success 20)

/-- C10: `getUserLocation` is total and every returned record has all three
fields populated (never the empty string); a successful lookup with missing
fields yields the per-field defaults Unknown City / Unknown Country /
127.0.0.1 while a failed lookup yields Your City / Your Country /
127.0.0.1, and the two placeholder records are distinct. -/
theorem getUserLocation_spec :
    (∀ r, (getUserLocation r).city ≠ "" ∧ (getUserLocation r).country ≠ "" ∧
      (getUserLocation r).ip ≠ "") ∧
    getUserLocation (some ⟨none, none, none⟩) =
      ⟨"Unknown City", "Unknown Country", "127.0.0.1"⟩ ∧
    getUserLocation none = ⟨"Your City", "Your Country", "127.0.0.1"⟩ ∧
    getUserLocation (some ⟨none, none, none⟩) ≠ getUserLocation none := by
  refine ⟨?_, rfl, rfl, by decide⟩
  intro r
  cases r with
  | none => exact ⟨by decide, by decide, by decide⟩
  | some d =>
    exact ⟨jsOrDefault_ne_empty _ _ (by decide),
      jsOrDefault_ne_empty _ _ (by decide),
      jsOrDefault_ne_empty _ _ (by decide)⟩

/-- C6 counterexample: with the default configuration
(parallelConnections = 4) the upload phase launches only
min(4, 3) = 3 tasks, not parallelConnections = 4. -/
theorem uploadFanout_counterexample :
    (uploadTaskUrls defaultConfig).length = 3 ∧
    defaultConfig.parallelConnections = 4 ∧
    (uploadTaskUrls defaultConfig).length ≠ defaultConfig.parallelConnections := by
  refine ⟨?_, rfl, ?_⟩ <;> simp [uploadTaskUrls, defaultConfig]

/-- C6 (amended): the download phase launches exactly
`parallelConnections` tasks while the upload phase launches
`min(parallelConnections, 3)` tasks; each task round-robins over its
three-endpoint pool by task index mod 3. -/
theorem throughputFanout_spec (cfg : TestConfig) :
    (downloadUrls cfg).length = cfg.parallelConnections ∧
    (uploadTaskUrls cfg).length = min cfg.parallelConnections 3 ∧
    (∀ i, i < cfg.parallelConnections →
      (downloadUrls cfg).getD i "" = (downloadUrlPool i).getD (i % 3) "") ∧
    (∀ i, i < min cfg.parallelConnections 3 →
      (uploadTaskUrls cfg).getD i "" =
        uploadEndpoints.getD (i % uploadEndpoints.length) "") := by
  refine ⟨by simp [downloadUrls], by simp [uploadTaskUrls], ?_, ?_⟩
  · intro i hi
    rw [downloadUrls, List.getD_eq_getElem?_getD, List.getElem?_map,
      List.getElem?_range hi]
    rfl
  · intro i hi
    rw [uploadTaskUrls, List.getD_eq_getElem?_getD, List.getElem?_map,
      List.getElem?_range hi]
    rfl

/-- C6 witness: the theorem instantiated at the default configuration. -/
theorem throughputFanout_spec_witness :
    (downloadUrls defaultConfig).length = defaultConfig.parallelConnections ∧
    (uploadTaskUrls defaultConfig).length = min defaultConfig.parallelConnections 3 ∧
    (∀ i, i < defaultConfig.parallelConnections →
      (downloadUrls defaultConfig).getD i "" = (downloadUrlPool i).getD (i % 3) "") ∧
    (∀ i, i < min defaultConfig.parallelConnections 3 →
      (uploadTaskUrls defaultConfig).getD i "" =
        uploadEndpoints.getD (i % uploadEndpoints.length) "") :=
  throughputFanout_spec defaultConfig

/-- C3: the shared abort token is not wired into any network call — none of
the seven `fetch` call sites passes `abortController.signal`; in particular
every in-flight download task is bounded only by its own
`AbortSignal.timeout(duration * 1000)` and runs unaffected by `abort()`. -/
theorem abortSignal_not_wired (cfg : TestConfig) :
    abortTrips ∉ allFetchSignals cfg ∧
    downloadSignal cfg = .timeoutMs (cfg.duration * 1000) ∧
    uploadSignal cfg = .timeoutMs (cfg.duration * 1000) := by
  refine ⟨?_, rfl, rfl⟩
  intro hmem
  simp [allFetchSignals, abortTrips, quickPingSignal, measurePingSignal,
    downloadSignal, uploadSignal, bufferbloatLoadSignal, packetLossSignal,
    geoLookupSignal] at hmem

/-- C3 witness: the theorem instantiated at the default configuration. -/
theorem abortSignal_not_wired_witness :
    abortTrips ∉ allFetchSignals defaultConfig ∧
    downloadSignal defaultConfig = .timeoutMs (defaultConfig.duration * 1000) ∧
    uploadSignal defaultConfig = .timeoutMs (defaultConfig.duration * 1000) :=
  abortSignal_not_wired defaultConfig

/-- C9 counterexample: `measureBufferbloat` launches the background-load
download tasks but never awaits them — the first `loadPromises` entry is a
launched task that is not in the awaited set, so the phase can complete
before its background downloads resolve. -/
theorem bufferbloatLoad_not_awaited :
    BufferbloatTask.backgroundLoad 0 ∈ bufferbloatLaunched ∧
    BufferbloatTask.backgroundLoad 0 ∉ bufferbloatAwaited := by
  decide

/-- C9 (amended): `measurePacketLoss` joins all 50 of its probes before
completing (`Promise.all` over every pushed request), but
`measureBufferbloat` awaits only its 5 latency probes — each of its 3
background-load downloads is launched and never awaited. -/
theorem joinAll_spec :
    packetLossAwaited = packetLossLaunched ∧
    packetLossLaunched.length = 50 ∧
    (∀ i : Fin 5, BufferbloatTask.latencyProbe i ∈ bufferbloatAwaited) ∧
    (∀ i : Fin 3, BufferbloatTask.backgroundLoad i ∈ bufferbloatLaunched ∧
      BufferbloatTask.backgroundLoad i ∉ bufferbloatAwaited) := by
  decide

/-- C1: for every configuration and environment `runSpeedTest` returns
exactly one result; on the success path and on the catastrophic-fallback
path alike, the last progress event emitted is phase `complete` with
progress exactly 100, and the result's packetLoss record satisfies
received ≤ sent. -/
theorem runSpeedTest_spec (cfg : TestConfig) (env : RunEnv) :
    (runSpeedTest cfg env).2.getLast? =
      some (⟨.complete, 100, 0⟩ : TestProgress) ∧
    ∃ pl, (runSpeedTest cfg env).1.packetLoss = some pl ∧
      pl.received ≤ pl.sent := by
  have hcomplete : updateProgress .complete 100 0 =
      (⟨.complete, 100, 0⟩ : TestProgress) := by
    simp [updateProgress]
  rw [runSpeedTest]
  by_cases h : env.catastrophic = true
  · rw [if_pos h]
    refine ⟨?_, ⟨⟨2, 50, 49⟩, rfl, by norm_num⟩⟩
    show ((successEvents cfg env).take env.catastrophicAt ++
      [updateProgress .complete 100 0]).getLast? = _
    rw [List.getLast?_concat, hcomplete]
  · rw [if_neg h]
    refine ⟨?_, ⟨measurePacketLoss env.plOutcomes env.plCatastrophic, rfl,
      measurePacketLoss_received_le _ _⟩⟩
    show (successEvents cfg env ++
      [updateProgress .complete 100 0]).getLast? = _
    rw [List.getLast?_concat, hcomplete]

end SpeedTestEngine
